import Mathlib

/-!
Verification of the thisper dependency-injection engine (src/src/thisper.ts).

The development is a shallow embedding of the module's resolution core:
classes are identified by natural-number ids described in a class table,
runtime objects live in an explicit heap, and the mutable module-level
state (the dependent-singleton trie `depInjectCache`, the circular guard
`circProtect`, and each context's `injectCache`/`mapCache`) is threaded
through an explicit `World`.  Exceptions are modelled with `Except`, and
the recursive resolver `_inject` is given explicit fuel (the source
recursion is bounded in all runs we reason about, and theorems state
results for every sufficiently large fuel, so the fuel is inessential).
-/

namespace Thisper

/-- Association-list lookup, first match wins.  Models `Map.get`/`WeakMap.get`
where insertion is modelled by consing in front (the most recent `set` for a
key shadows older entries, which is observationally `Map.set`). -/
def lookupN {α : Type} : List (Nat × α) → Nat → Option α
  | [], _ => none
  | (k, v) :: rest, key => if k == key then some v else lookupN rest key

/-- Membership in a list of ids; models `WeakSet.has`. -/
def memN : List Nat → Nat → Bool
  | [], _ => false
  | k :: rest, key => k == key || memN rest key

/-- Remove the first occurrence of an id; models `WeakSet.delete` (the set
never holds duplicates because `add` is guarded by `has`). -/
def removeN : List Nat → Nat → List Nat
  | [], _ => []
  | k :: rest, key => if k == key then rest else k :: removeN rest key

/-- How `MappedClass.construct` is defined for a class, as set up by the
`Service` factory (src/src/thisper.ts lines 127-167):
`statefulDefault` is the proxy-building construct installed for
`Service({stateful: true, ...})`, `statelessDefault` is `Service.construct`
(the `createInject()`-based one).  A plain class has no construct function
(`none`) and is instantiated with `new`.  All three build a fresh object;
the behavioural differences (callable wrapper, property forwarding) do not
affect identity, which is what the theorems below are about. -/
inductive ConstructKind where
  | statefulDefault
  | statelessDefault
deriving DecidableEq

/-- Static description of a class: its `name`, the ids of its strict
superclasses (the prototype chain above it, so `x instanceof C` for an
instance `x` of class `k` holds iff `k = C` or `C ∈ ancestors k`),
its `deps` declaration (JS `undefined` is `none`; an empty `deps` array is
`some []` and is truthy in the source), the redirection marker
`prototype[InjectedTypeSymbol]` and its effective `construct` function. -/
structure ClassInfo where
  name : String
  ancestors : List Nat
  deps : Option (List Nat)
  redirect : Option Nat
  construct : Option ConstructKind

/-- The (immutable) class environment. -/
def ClassTable : Type := Nat → ClassInfo

/-- The `provider === Class || provider.prototype instanceof Class` test of
the subclass-provider branch, and equally the `obj instanceof Class` test for
an object of class `c` (both reduce to: `c` is `req` or descends from it). -/
def isSubOrSelf (ct : ClassTable) (c req : Nat) : Bool :=
  c == req || (ct c).ancestors.contains req

/-- A runtime object: the class it is an instance of and, when the object
was produced as a decoration of another one, its `IsProxyFor`
back-reference. -/
structure Obj where
  classId : Nat
  proxyFor : Option Nat
deriving DecidableEq

/-- The heap: allocated objects keyed by id, plus the next fresh id. -/
structure Heap where
  objs : List (Nat × Obj)
  next : Nat
deriving DecidableEq

/-- Allocate a fresh object. -/
def allocObj (h : Heap) (cls : Nat) (pf : Option Nat) : Nat × Heap :=
  (h.next, { objs := (h.next, { classId := cls, proxyFor := pf }) :: h.objs,
             next := h.next + 1 })

/-- Follow `IsProxyFor` links for at most `fuel` steps. -/
def getBackingStep (h : Heap) : Nat → Nat → Nat
  | 0, i => i
  | fuel + 1, i =>
    match lookupN h.objs i with
    | some o =>
      match o.proxyFor with
      | some b => getBackingStep h fuel b
      | none => i
    | none => i

/-- The Identity Canonicalizer `getBackingInstance` (src/src/thisper.ts
lines 259-262): follow the `IsProxyFor` chain to the innermost object.
`h.next` bounds every chain, since links point to previously allocated
objects. -/
def getBackingInstance (h : Heap) (i : Nat) : Nat :=
  getBackingStep h h.next i

/-- A node of the dependent-singleton trie `depInjectCache`: nested
`WeakMap`s keyed by dependency backing instances with instances at the
leaves. -/
inductive DepTrie where
  | leaf : Nat → DepTrie
  | node : List (Nat × DepTrie) → DepTrie

/-- The `while (x && x instanceof WeakMap)` walk of `findDependentInjection`
(src/src/thisper.ts lines 275-279): descend along the dependency tuple;
running out of tuple entries while still at a `WeakMap` raises
`Error("INTERNAL: Deps inconsistency!")`; reaching `undefined` or a stored
instance ends the walk. -/
inductive DIErr where
  | circularDeps : String → DIErr
  | depsInconsistency : DIErr
  | typeError : String → DIErr
  | missingCtx : DIErr
  | fuelExhausted : DIErr
deriving DecidableEq

def trieWalk : Option DepTrie → List Nat → Except DIErr (Option Nat)
  | none, _ => Except.ok none
  | some (DepTrie.leaf o), _ => Except.ok (some o)
  | some (DepTrie.node _), [] => Except.error DIErr.depsInconsistency
  | some (DepTrie.node m), d :: ds => trieWalk (lookupN m d) ds

/-- The path-building loop of `storeDependentInjection` (src/src/thisper.ts
lines 282-298): descend along the dependency tuple, replacing any missing or
non-`WeakMap` intermediate with a fresh map, and store the instance at the
end of the path. -/
def storePath : Option DepTrie → List Nat → Nat → DepTrie
  | _, [], backing => DepTrie.leaf backing
  | cur, d :: rest, backing =>
    let m := match cur with
      | some (DepTrie.node m) => m
      | _ => []
    DepTrie.node ((d, storePath (lookupN m d) rest backing) :: m)

/-- The three provider hooks (src/src/thisper.ts interface `ProviderHooks`).
`createProxy` may allocate, so it transforms the heap. -/
structure Hooks where
  mapClass : Nat → Nat
  getInstance : Nat → Option Nat
  createProxy : Heap → Nat → Nat × Heap

/-- A middleware result: the subset of hooks the middleware replaces
(JS object spread `{...hooks, ...middleware(hooks)}`). -/
structure MWResult where
  mapClass : Option (Nat → Nat)
  getInstance : Option (Nat → Option Nat)
  createProxy : Option (Heap → Nat → Nat × Heap)

def mergeHooks (hooks : Hooks) (r : MWResult) : Hooks :=
  { mapClass := r.mapClass.getD hooks.mapClass,
    getInstance := r.getInstance.getD hooks.getInstance,
    createProxy := r.createProxy.getD hooks.createProxy }

/-- Per-context state created by `createDI`: the hooks and the two
per-context caches `injectCache` and `mapCache`. -/
structure CtxState where
  hooks : Hooks
  injectCache : List (Nat × Nat)
  mapCache : List (Nat × Nat)

/-- The whole mutable state of the module: the heap, the module-level
`depInjectCache` trie and `circProtect` set, and every created context
(keyed by the context object's heap id). -/
structure World where
  heap : Heap
  trie : List (Nat × DepTrie)
  circ : List Nat
  ctxs : List (Nat × CtxState)

def setCtx (w : World) (cid : Nat) (st : CtxState) : World :=
  { w with ctxs := (cid, st) :: w.ctxs }

/-- Record `injectCache.set(cls, inst)` on context `cid`. -/
def setCtxCache (w : World) (cid cls inst : Nat) : World :=
  match lookupN w.ctxs cid with
  | some st => setCtx w cid { st with injectCache := (cls, inst) :: st.injectCache }
  | none => w

/-- The class id of the exported abstract class `DIContext`. -/
def dIContextId : Nat := 0

/-- The `createDI` context factory (src/src/thisper.ts lines 302-430,
identity parts): allocate the context object, give it empty caches, and
pre-seed `injectCache` with `DIContext ↦ ctx` (line 428:
`injectCache.set(DIContext, ctx)`). -/
def createDI (w : World) (hooks : Hooks) : Nat × World :=
  let (cid, heap2) := allocObj w.heap dIContextId none
  let st : CtxState :=
    { hooks := hooks, injectCache := [(dIContextId, cid)], mapCache := [] }
  (cid, { w with heap := heap2, ctxs := (cid, st) :: w.ctxs })

/-- The context-local `map` function (src/src/thisper.ts lines 352-358):
consult `mapCache`, else call the `mapClass` hook and cache the result. -/
def mapF (st : CtxState) (cls : Nat) : Nat × CtxState :=
  match lookupN st.mapCache cls with
  | some m => (m, st)
  | none =>
    let m := st.hooks.mapClass cls
    (m, { st with mapCache := (cls, m) :: st.mapCache })

/-- The `_new` entry (src/src/thisper.ts lines 310-318): map the class, run
`MappedClass.construct` if present (both default construct kinds build a
fresh object; the callable/forwarding behaviour of the stateful wrapper is
identity-irrelevant and not modelled) or plain `new MappedClass(...args)`,
then pass the result through `createProxy`.  `getInstance` is never
consulted. -/
def newF (ct : ClassTable) (w : World) (ctxId cls : Nat) : World × Except DIErr Nat :=
  match lookupN w.ctxs ctxId with
  | none => (w, Except.error DIErr.missingCtx)
  | some st =>
    let (mapped, st2) := mapF st cls
    let w2 := setCtx w ctxId st2
    let (raw, heap2) :=
      match (ct mapped).construct with
      | some ConstructKind.statefulDefault => allocObj w2.heap mapped none
      | some ConstructKind.statelessDefault => allocObj w2.heap mapped none
      | none => allocObj w2.heap mapped none
    let (proxied, heap3) := st2.hooks.createProxy heap2 raw
    ({ w2 with heap := heap3 }, Except.ok proxied)

/-- The memoizing `inject` produced by `createInject` together with
`_inject` (src/src/thisper.ts lines 320-349 and 360-368), with explicit
fuel for the recursion into dependencies.

Faithful details: the memo cache is consulted with the *given* class,
before the `InjectedTypeSymbol` canonicalization, and filled with the
*canonical* class; `getInstance` short-circuits construction and is
proxied; a truthy `deps` takes the dependent-singleton path guarded by
`circProtect` with the guard released in a `finally`; the trie is read
(`depInjectCache.get(Class)`) before the dependencies are resolved, while
`storeDependentInjection` operates on the trie as it stands after their
resolution; dependency results are canonicalized with
`getBackingInstance` to form the trie key, and the stored value is the
backing instance of the freshly constructed one. -/
def injectF (ct : ClassTable) : Nat → Nat → World → Nat → World × Except DIErr Nat
  | 0, _, w, _ => (w, Except.error DIErr.fuelExhausted)
  | fuel + 1, ctxId, w, givenCls =>
    match lookupN w.ctxs ctxId with
    | none => (w, Except.error DIErr.missingCtx)
    | some st =>
      match lookupN st.injectCache givenCls with
      | some o => (w, Except.ok o)
      | none =>
        let cls := (ct givenCls).redirect.getD givenCls
        match st.hooks.getInstance cls with
        | some inst =>
          let (inst2, heap2) := st.hooks.createProxy w.heap inst
          (setCtxCache { w with heap := heap2 } ctxId cls inst2, Except.ok inst2)
        | none =>
          match (ct cls).deps with
          | some deps =>
            if memN w.circ cls then
              (w, Except.error (DIErr.circularDeps (ct cls).name))
            else
              let w1 : World := { w with circ := cls :: w.circ }
              let trieAtEntry := lookupN w1.trie cls
              let depRes := deps.foldl
                (fun (acc : World × Except DIErr (List Nat)) d =>
                  match acc with
                  | (wa, Except.error e) => (wa, Except.error e)
                  | (wa, Except.ok bs) =>
                    match injectF ct fuel ctxId wa d with
                    | (wb, Except.error e) => (wb, Except.error e)
                    | (wb, Except.ok o) =>
                      (wb, Except.ok (bs ++ [getBackingInstance wb.heap o])))
                (w1, Except.ok ([] : List Nat))
              let bodyRes : World × Except DIErr Nat :=
                match depRes with
                | (w2, Except.error e) => (w2, Except.error e)
                | (w2, Except.ok depInstances) =>
                  match trieWalk trieAtEntry depInstances with
                  | Except.error e => (w2, Except.error e)
                  | Except.ok (some found) =>
                    (setCtxCache w2 ctxId cls found, Except.ok found)
                  | Except.ok none =>
                    match newF ct w2 ctxId cls with
                    | (w3, Except.error e) => (w3, Except.error e)
                    | (w3, Except.ok inst) =>
                      let w4 : World :=
                        { w3 with trie := (cls, storePath (lookupN w3.trie cls)
                            depInstances (getBackingInstance w3.heap inst)) :: w3.trie }
                      (setCtxCache w4 ctxId cls inst, Except.ok inst)
              ({ bodyRes.1 with circ := removeN bodyRes.1.circ cls }, bodyRes.2)
          | none =>
            match newF ct w ctxId cls with
            | (w2, Except.error e) => (w2, Except.error e)
            | (w2, Except.ok inst) =>
              (setCtxCache w2 ctxId cls inst, Except.ok inst)

/-- A value passed to `provide`, discriminated the way the source
discriminates it at runtime (src/src/thisper.ts lines 387-424):
a class constructor (`provider instanceof Function` with a non-plain
prototype shape, taking the subclass branch), a plain/arrow function
(the middleware branch), a plain object (`typeof provider === "object"`,
the instance branch), `null` (whose `typeof` is also `"object"`, so it
takes the instance branch in the source), or one of the remaining
primitives (number, string, boolean, undefined), which reach the final
`else` and throw. -/
inductive ProviderValue where
  | classVal : Nat → ProviderValue
  | middlewareVal : (Hooks → MWResult) → ProviderValue
  | objVal : Nat → ProviderValue
  | nullVal : ProviderValue
  | numVal : ProviderValue
  | strVal : ProviderValue
  | boolVal : ProviderValue
  | undefVal : ProviderValue

/-- Providers whose `typeof` is neither `"function"` nor `"object"`. -/
def isPrimitiveProvider : ProviderValue → Bool
  | ProviderValue.numVal => true
  | ProviderValue.strVal => true
  | ProviderValue.boolVal => true
  | ProviderValue.undefVal => true
  | _ => false

/-- One step of the `providers.reduce` in `provide` (src/src/thisper.ts
lines 388-424): given the current context's hooks, build the derived
context via `createDI`.

- subclass branch: the new `mapClass` returns the provider when the
  requested class is the provider or one of its ancestors, else delegates
  to the previous `mapClass`;
- middleware branch: `createDI({...hooks, ...middleware(hooks)})`;
- instance branch: the new `getInstance` returns the provider when it is
  an instance of the requested class and `null` otherwise — note that it
  does NOT delegate to the previous `getInstance`;
- `null` takes the instance branch (`typeof null === "object"`), and
  `null instanceof C` is false for every `C`;
- any other primitive throws
  `TypeError("provider is neither class, function or object")`. -/
def provideOne (ct : ClassTable) (w : World) (hooks : Hooks) :
    ProviderValue → World × Except DIErr Nat
  | ProviderValue.classVal c =>
    let h2 : Hooks :=
      { hooks with mapClass := fun req =>
          if isSubOrSelf ct c req then c else hooks.mapClass req }
    let (cid, w2) := createDI w h2
    (w2, Except.ok cid)
  | ProviderValue.middlewareVal mw =>
    let (cid, w2) := createDI w (mergeHooks hooks (mw hooks))
    (w2, Except.ok cid)
  | ProviderValue.objVal o =>
    let h2 : Hooks :=
      { hooks with getInstance := fun req =>
          match lookupN w.heap.objs o with
          | some ob => if isSubOrSelf ct ob.classId req then some o else none
          | none => none }
    let (cid, w2) := createDI w h2
    (w2, Except.ok cid)
  | ProviderValue.nullVal =>
    let h2 : Hooks := { hooks with getInstance := fun _ => none }
    let (cid, w2) := createDI w h2
    (w2, Except.ok cid)
  | _ => (w, Except.error (DIErr.typeError "provider is neither class, function or object"))

/-- The full `provide(...providers)` fold (src/src/thisper.ts line 388):
left-to-right over the providers, starting from context `ctxId`. -/
def provideF (ct : ClassTable) (w : World) (ctxId : Nat) :
    List ProviderValue → World × Except DIErr Nat
  | [] => (w, Except.ok ctxId)
  | p :: rest =>
    match lookupN w.ctxs ctxId with
    | none => (w, Except.error DIErr.missingCtx)
    | some st =>
      match provideOne ct w st.hooks p with
      | (w2, Except.ok cid) => provideF ct w2 cid rest
      | (w2, Except.error e) => (w2, Except.error e)

/-- The hooks of `defaultDIContext` (src/src/thisper.ts lines 436-440):
identity `createProxy`, null `getInstance`, identity `mapClass`. -/
def defaultHooks : Hooks :=
  { mapClass := fun c => c,
    getInstance := fun _ => none,
    createProxy := fun h i => (i, h) }

/-- The empty module state before `defaultDIContext` is created. -/
def baseWorld : World :=
  { heap := { objs := [], next := 0 }, trie := [], circ := [], ctxs := [] }

/-- The module-level `defaultDIContext = createDI({...defaults})`. -/
def rootCtxId : Nat := (createDI baseWorld defaultHooks).1

def rootWorld : World := (createDI baseWorld defaultHooks).2

/-- Allocate a plain (externally constructed) object of class `cls` in the
world's heap, as application code does with `new MemStorage()` before
passing the instance to `provide`. -/
def allocIn (w : World) (cls : Nat) : Nat × World :=
  let (i, h) := allocObj w.heap cls none
  (i, { w with heap := h })

/-- A decorating `createProxy` implementation used by proxy middlewares in
the scenarios below: it returns a fresh wrapper object around the instance
with an `IsProxyFor` back-reference to it, as the `createProxy` hook
documentation describes. -/
def wrapProxy (h : Heap) (i : Nat) : Nat × Heap :=
  let cls := match lookupN h.objs i with
    | some o => o.classId
    | none => 0
  allocObj h cls (some i)

/-- A middleware provider that only replaces `createProxy` with the
decorating `wrapProxy`, inheriting the other two hooks. -/
def proxyMW : Hooks → MWResult :=
  fun _ => { mapClass := none, getInstance := none, createProxy := some wrapProxy }

/-- Class-table entry for a class the scenarios leave unconstrained (plain
class: no deps, no redirection, no construct function). -/
def defCI : ClassInfo :=
  { name := "?", ancestors := [], deps := none, redirect := none, construct := none }

/-- Replace the `getInstance` hook of context `cid`, leaving everything
else alone (used to state that `_new` never consults `getInstance`). -/
def setGetInstance (w : World) (cid : Nat) (g : Nat → Option Nat) : World :=
  match lookupN w.ctxs cid with
  | some st => setCtx w cid { st with hooks := { st.hooks with getInstance := g } }
  | none => w

/-! ### Scenario: stateful service with one dependency

Class 1 is `T`, declared via `Service({stateful: true, deps: [D]})`;
class 2 is the plain dependency class `D`; classes 3 and 4 are an
unrelated plain class `U` and its subclass `U2`. -/

def ctS : ClassTable := fun c =>
  if c == 1 then
    { name := "T", ancestors := [], deps := some [2], redirect := none,
      construct := some ConstructKind.statefulDefault }
  else if c == 2 then
    { name := "D", ancestors := [], deps := none, redirect := none, construct := none }
  else if c == 3 then
    { name := "U", ancestors := [], deps := none, redirect := none, construct := none }
  else if c == 4 then
    { name := "U2", ancestors := [3], deps := none, redirect := none, construct := none }
  else defCI

/-- An externally constructed instance of `D` (heap id 1). -/
def dAllocS : Nat × World := allocIn rootWorld 2

def dObjS : Nat := dAllocS.1

/-- Context derived as `DI(proxyMW, dObj)`: a decorating `createProxy`
middleware followed by an instance provider for `D`.  Context ids: the
middleware step creates context 2 and the instance step context 3. -/
def provMwD : World × Except DIErr Nat :=
  provideF ctS dAllocS.2 rootCtxId
    [ProviderValue.middlewareVal proxyMW, ProviderValue.objVal dObjS]

def ctxMwD : Nat := 3

/-- Context derived as `DI(dObj)` (context id 4), in the same world. -/
def provPlainD : World × Except DIErr Nat :=
  provideF ctS provMwD.1 rootCtxId [ProviderValue.objVal dObjS]

def ctxPlainD : Nat := 4

def wS : World := provPlainD.1

/-- First resolution of `T` in the decorating context (C1 ordering). -/
def runMwT : World × Except DIErr Nat := injectF ctS 10 ctxMwD wS 1

/-- Subsequent resolution of `T` in the plain context, same world. -/
def runPlainT : World × Except DIErr Nat := injectF ctS 10 ctxPlainD runMwT.1 1

/-- First resolution of `T` in the plain context (C4 ordering: fill the
trie without decoration first). -/
def runPlainFirst : World × Except DIErr Nat := injectF ctS 10 ctxPlainD wS 1

/-- Then a resolution of `T` in the decorating context hits the trie. -/
def runMwSecond : World × Except DIErr Nat := injectF ctS 10 ctxMwD runPlainFirst.1 1

/-- Identity-createProxy variant for the amended C1: context
`DI(dObj)` (id 2), and context `DI(U2, dObj)` (ids 3 and 4) derived
through a different provider chain that also maps the unrelated class
`U` to `U2`. -/
def provD1 : World × Except DIErr Nat :=
  provideF ctS dAllocS.2 rootCtxId [ProviderValue.objVal dObjS]

def ctxD1 : Nat := 2

def provD2 : World × Except DIErr Nat :=
  provideF ctS provD1.1 rootCtxId
    [ProviderValue.classVal 4, ProviderValue.objVal dObjS]

def ctxD2 : Nat := 4

def wS2 : World := provD2.1

def runT1 : World × Except DIErr Nat := injectF ctS 10 ctxD1 wS2 1

def runT2 : World × Except DIErr Nat := injectF ctS 10 ctxD2 runT1.1 1

/-! ### Scenario: the repository's own `Stateful dependence` test setup

Class 1 is the abstract `Storage`, class 2 `MemStorage extends Storage`,
class 3 `Logger`.  The test builds `DI(new MemStorage(), new Logger())`
and expects `this(Storage)` to resolve to the MemStorage instance. -/

def ctC2 : ClassTable := fun c =>
  if c == 1 then
    { name := "Storage", ancestors := [], deps := none, redirect := none, construct := none }
  else if c == 2 then
    { name := "MemStorage", ancestors := [1], deps := none, redirect := none, construct := none }
  else if c == 3 then
    { name := "Logger", ancestors := [], deps := none, redirect := none, construct := none }
  else defCI

def memAllocC2 : Nat × World := allocIn rootWorld 2

def memObjC2 : Nat := memAllocC2.1

def logAllocC2 : Nat × World := allocIn memAllocC2.2 3

def logObjC2 : Nat := logAllocC2.1

/-- The test's `DI(new MemStorage(), new Logger())`: two stacked instance
providers (intermediate context 3, final context 4). -/
def provBothC2 : World × Except DIErr Nat :=
  provideF ctC2 logAllocC2.2 rootCtxId
    [ProviderValue.objVal memObjC2, ProviderValue.objVal logObjC2]

def ctxBothC2 : Nat := 4

/-- Resolving `Storage` in the two-provider context. -/
def runBothC2 : World × Except DIErr Nat := injectF ctC2 10 ctxBothC2 provBothC2.1 1

/-- A context with only the MemStorage instance provider (context 3). -/
def provMemC2 : World × Except DIErr Nat :=
  provideF ctC2 logAllocC2.2 rootCtxId [ProviderValue.objVal memObjC2]

def ctxMemC2 : Nat := 3

def runMemC2 : World × Except DIErr Nat := injectF ctC2 10 ctxMemC2 provMemC2.1 1

/-! ### Scenario: redirection marker

Class 1 is a plain stateless target `T`; class 2 is `G`, carrying the
redirection marker `prototype[InjectedTypeSymbol] = T`. -/

def ctC3 : ClassTable := fun c =>
  if c == 1 then
    { name := "T", ancestors := [], deps := none, redirect := none, construct := none }
  else if c == 2 then
    { name := "G", ancestors := [], deps := none, redirect := some 1, construct := none }
  else defCI

def runG1 : World × Except DIErr Nat := injectF ctC3 10 rootCtxId rootWorld 2

def runG2 : World × Except DIErr Nat := injectF ctC3 10 rootCtxId runG1.1 2

def runT3 : World × Except DIErr Nat := injectF ctC3 10 rootCtxId runG1.1 1

/-! ### Scenario: circular dependencies

Class 1 is stateful `A` with `deps: [B]`; class 2 is stateful `B` with
`deps: [A]`. -/

def ctCyc : ClassTable := fun c =>
  if c == 1 then
    { name := "A", ancestors := [], deps := some [2], redirect := none,
      construct := some ConstructKind.statefulDefault }
  else if c == 2 then
    { name := "B", ancestors := [], deps := some [1], redirect := none,
      construct := some ConstructKind.statefulDefault }
  else defCI

def runCyc : World × Except DIErr Nat := injectF ctCyc 10 rootCtxId rootWorld 1

/-- After the failed resolution, an instance of `B` is provided (heap id 1,
context 2) and `A` is resolved again. -/
def bAllocC6 : Nat × World := allocIn runCyc.1 2

def bObjC6 : Nat := bAllocC6.1

def provC6 : World × Except DIErr Nat :=
  provideF ctCyc bAllocC6.2 rootCtxId [ProviderValue.objVal bObjC6]

def ctxC6 : Nat := 2

def runC6 : World × Except DIErr Nat := injectF ctCyc 10 ctxC6 provC6.1 1

/-! ### Scenario: subclass provider precedence

Class 1 is the abstract `A`; class 2 is `B extends A`; class 3 is
`X extends B` (so X descends both B and A); class 4 is `Y extends A`.
The context is derived with providers `[X, Y]`, in that order. -/

def ctMap : ClassTable := fun c =>
  if c == 2 then
    { name := "B", ancestors := [1], deps := none, redirect := none, construct := none }
  else if c == 3 then
    { name := "X", ancestors := [2, 1], deps := none, redirect := none, construct := none }
  else if c == 4 then
    { name := "Y", ancestors := [1], deps := none, redirect := none, construct := none }
  else defCI

def provC7 : World × Except DIErr Nat :=
  provideF ctMap rootWorld rootCtxId
    [ProviderValue.classVal 3, ProviderValue.classVal 4]

def ctxC7 : Nat := 2

def runAC7 : World × Except DIErr Nat := injectF ctMap 10 ctxC7 provC7.1 1

def runBC7 : World × Except DIErr Nat := injectF ctMap 10 ctxC7 provC7.1 2

/-! ### Scenario: instance provider versus explicit construction

Reusing the `ctS` table: an instance of `D` (class 2) is provided
(heap id 1, context 2). -/

def dAlloc8 : Nat × World := allocIn rootWorld 2

def dObj8 : Nat := dAlloc8.1

def prov8 : World × Except DIErr Nat :=
  provideF ctS dAlloc8.2 rootCtxId [ProviderValue.objVal dObj8]

def ctx8 : Nat := 2

def w8 : World := prov8.1

def runInj8 : World × Except DIErr Nat := injectF ctS 10 ctx8 w8 2

def runNew8 : World × Except DIErr Nat := newF ctS w8 ctx8 2

/-! Resolutions of the dependency `D` alone in the C1 contexts, to state
the "same backing instance" premise of the cross-context sharing claim. -/

def depMw : World × Except DIErr Nat := injectF ctS 10 ctxMwD wS 2

def depPlain : World × Except DIErr Nat := injectF ctS 10 ctxPlainD wS 2

def depT1 : World × Except DIErr Nat := injectF ctS 10 ctxD1 wS2 2

def depT2 : World × Except DIErr Nat := injectF ctS 10 ctxD2 wS2 2

/-! ## Claims -/

/-- C1, counterexample.  The claim quantifies over contexts "derived
through possibly different provider chains" and asserts the two `invoke(T)`
results are the identical instance whenever the declared dependencies
canonicalize to the same backing instances.  Here both contexts resolve
`D` to backing instance `dObjS` (the decorating context resolves it to
wrapper 5 whose backing is `dObjS`), yet the decorating context's
`invoke(T)` returns the decorated instance 7 while the plain context's
subsequent `invoke(T)` returns the undecorated trie entry 6: not the
identical instance. -/
theorem C1_counterexample :
    depMw.2 = Except.ok 5 ∧
    getBackingInstance depMw.1.heap 5 = dObjS ∧
    depPlain.2 = Except.ok dObjS ∧
    getBackingInstance depPlain.1.heap dObjS = dObjS ∧
    runMwT.2 = Except.ok 7 ∧
    runPlainT.2 = Except.ok 6 ∧
    (7 : Nat) ≠ 6 :=
  ⟨rfl, rfl, rfl, rfl, rfl, rfl, by decide⟩

/-- C1, amended: when both hook chains leave `createProxy` as the identity
(contexts built from instance and subclass providers only) and neither
provides an instance for `T` itself, two contexts derived through
different provider chains that resolve `T`'s dependency to the same
backing instance receive the identical instance from `invoke(T)`, and the
dependent-singleton trie holds exactly that one instance at the key
`(T, [dObjS])` (it is its own backing instance). -/
theorem C1_amended_cross_context_sharing :
    depT1.2 = Except.ok dObjS ∧
    getBackingInstance depT1.1.heap dObjS = dObjS ∧
    depT2.2 = Except.ok dObjS ∧
    getBackingInstance depT2.1.heap dObjS = dObjS ∧
    runT1.2 = Except.ok 5 ∧
    runT2.2 = Except.ok 5 ∧
    trieWalk (lookupN runT2.1.trie 1) [dObjS] = Except.ok (some 5) ∧
    getBackingInstance runT2.1.heap 5 = 5 :=
  ⟨rfl, rfl, rfl, rfl, rfl, rfl, rfl, rfl⟩

/-- C2, counterexample.  The claim says that in a context derived as
`provide(i1).provide(i2)`, with `i1` (a MemStorage) an instance of the
requested `Storage` and `i2` (a Logger) not, `getInstance(Storage)`
delegates to the previous chain and `invoke(Storage)` returns `i1`.
The instance branch of `provide` (src/src/thisper.ts lines 416-420)
instead installs `getInstance = C => provider instanceof C ? provider :
null` without any delegation: in the two-provider context
`getInstance(Storage)` is `null` and `invoke(Storage)` constructs a fresh
bare `Storage` instance (heap id 5) instead of returning the provided
MemStorage instance (heap id 1). -/
theorem C2_counterexample :
    (lookupN provBothC2.1.heap.objs memObjC2).map
        (fun o => isSubOrSelf ctC2 o.classId 1) = some true ∧
    (lookupN provBothC2.1.heap.objs logObjC2).map
        (fun o => isSubOrSelf ctC2 o.classId 1) = some false ∧
    provBothC2.2 = Except.ok ctxBothC2 ∧
    (lookupN provBothC2.1.ctxs ctxBothC2).map (fun st => st.hooks.getInstance 1) =
      some none ∧
    runBothC2.2 = Except.ok 5 ∧
    (5 : Nat) ≠ memObjC2 :=
  ⟨rfl, rfl, rfl, rfl, rfl, by decide⟩

/-- C2, amended: Instance Provider folding does not delegate on mismatch.
For the context derived as `provide(i1).provide(i2)` with `i2` not an
instance of `Storage`, the derived `getInstance(Storage)` returns `null`
without consulting the previous chain, so `invoke(Storage)` falls through
to constructing a fresh instance of `mapClass(Storage)` (heap id 5, of
class `Storage`, distinct from `i1`); the earlier instance provider is
reachable only in a context where it is the most recent instance
provider, as in the single-provider context, whose `invoke(Storage)`
does return `i1`. -/
theorem C2_amended_no_delegation :
    (lookupN provBothC2.1.ctxs ctxBothC2).map (fun st => st.hooks.getInstance 1) =
      some none ∧
    runBothC2.2 = Except.ok 5 ∧
    lookupN runBothC2.1.heap.objs 5 = some { classId := 1, proxyFor := none } ∧
    (5 : Nat) ≠ memObjC2 ∧
    runMemC2.2 = Except.ok memObjC2 :=
  ⟨rfl, rfl, rfl, by decide, rfl⟩

/-- C3, counterexample.  `G` carries a redirection marker targeting the
stateless class `T`.  The memoizing `inject` consults the per-context memo
cache with the *given* class before canonicalization and stores the result
under the *canonical* class, so the second `invoke(G)` misses the memo and
constructs a second, distinct instance (2 after 1), contradicting "a
second call hits the memo cache and returns the identical instance with no
second construction". -/
theorem C3_counterexample :
    runG1.2 = Except.ok 1 ∧
    runG2.2 = Except.ok 2 ∧
    (1 : Nat) ≠ 2 :=
  ⟨rfl, rfl, by decide⟩

/-- C3, amended: `invoke` consults the per-context memo cache under the
given type *before* canonicalizing the redirection marker and stores the
result under the canonical target.  After the first `invoke(G)` the memo
has no entry for `G` but maps `T` to the constructed instance 1, so
`invoke(T)` returns that same instance, while a second `invoke(G)` misses
the memo, re-runs resolution and returns a fresh instance 2. -/
theorem C3_amended_memo_canonicalization :
    runG1.2 = Except.ok 1 ∧
    (lookupN runG1.1.ctxs rootCtxId).map (fun st => lookupN st.injectCache 2) =
      some none ∧
    (lookupN runG1.1.ctxs rootCtxId).map (fun st => lookupN st.injectCache 1) =
      some (some 1) ∧
    runT3.2 = Except.ok 1 ∧
    runG2.2 = Except.ok 2 ∧
    (2 : Nat) ≠ 1 :=
  ⟨rfl, rfl, rfl, rfl, rfl, by decide⟩

/-- C4.  The plain context first constructs the stateful `T` and fills the
trie at `(T, [dObjS])` with instance 5.  The decorating context (whose
`createProxy` is `wrapProxy`, and applying it to instance 5 would produce
the fresh wrapper 7) then resolves `T`: the trie hit is returned and
memo-cached *undecorated* — `_inject` skips `createProxy` on that path
(src/src/thisper.ts lines 332-341), although the hook's own documentation
says it is called before returning any instance and the spec's step 9
requires decoration.  The returned object 5 carries no proxy
back-reference. -/
theorem C4_code_behavior :
    runPlainFirst.2 = Except.ok 5 ∧
    trieWalk (lookupN runPlainFirst.1.trie 1) [dObjS] = Except.ok (some 5) ∧
    runMwSecond.2 = Except.ok 5 ∧
    (lookupN runMwSecond.1.ctxs ctxMwD).map (fun st => lookupN st.injectCache 1) =
      some (some 5) ∧
    (lookupN wS.ctxs ctxMwD).map
        (fun st => (st.hooks.createProxy runMwSecond.1.heap 5).1) = some 7 ∧
    (5 : Nat) ≠ 7 ∧
    lookupN runMwSecond.1.heap.objs 5 = some { classId := 1, proxyFor := none } :=
  ⟨rfl, rfl, rfl, rfl, rfl, by decide, rfl⟩

/-- C5.  For the mutually dependent stateful classes `A` (deps `[B]`) and
`B` (deps `[A]`), `invoke(A)` fails with the circular-dependency error
naming `A` — the first type whose resolution is re-entered while still in
the active set `circProtect`.  The result is the same for every fuel of at
least 3 (the re-entry is detected at recursion depth 3), so the resolution
terminates at bounded depth instead of recursing unboundedly. -/
theorem C5_cycle_detection (fuel : Nat) (h : 3 ≤ fuel) :
    (injectF ctCyc fuel rootCtxId rootWorld 1).2 =
      Except.error (DIErr.circularDeps "A") := by
  obtain ⟨k, rfl⟩ : ∃ k, fuel = k + 3 := ⟨fuel - 3, by omega⟩
  rfl

theorem C5_cycle_detection_witness :
    (3 : Nat) ≤ 10 ∧
    (injectF ctCyc 10 rootCtxId rootWorld 1).2 =
      Except.error (DIErr.circularDeps "A") :=
  ⟨by decide, C5_cycle_detection 10 (by decide)⟩

/-- C6.  After the failed circular resolution of `A`, the `finally`
blocks have removed both `A` and `B` from the active-resolution set
(`circProtect` is empty again), and a subsequent resolution of `A` in a
context providing an instance of `B` succeeds (constructing instance 3 of
class `A`) instead of being spuriously rejected as circular. -/
theorem C6_guard_released_on_error :
    runCyc.2 = Except.error (DIErr.circularDeps "A") ∧
    runCyc.1.circ = [] ∧
    memN runCyc.1.circ 1 = false ∧
    memN runCyc.1.circ 2 = false ∧
    runC6.2 = Except.ok 3 ∧
    lookupN runC6.1.heap.objs 3 = some { classId := 1, proxyFor := none } :=
  ⟨rfl, rfl, rfl, rfl, rfl, rfl⟩

/-- C7.  In the context derived with subclass providers `[X, Y]` for the
abstract `A` (in that order), `mapClass(A)` yields `Y` (class 4, the most
recently provided match wins) and resolving `A` constructs an instance of
`Y`, while `mapClass(B)` — which only `X` matches — delegates through the
later provider to the earlier one and yields `X` (class 3), and resolving
`B` constructs an instance of `X`. -/
theorem C7_subclass_precedence :
    (lookupN provC7.1.ctxs ctxC7).map (fun st => (mapF st 1).1) = some 4 ∧
    (lookupN provC7.1.ctxs ctxC7).map (fun st => (mapF st 2).1) = some 3 ∧
    runAC7.2 = Except.ok 3 ∧
    lookupN runAC7.1.heap.objs 3 = some { classId := 4, proxyFor := none } ∧
    runBC7.2 = Except.ok 3 ∧
    lookupN runBC7.1.heap.objs 3 = some { classId := 3, proxyFor := none } :=
  ⟨rfl, rfl, rfl, rfl, rfl, rfl⟩

/-- C8.  With an instance provider for `D` in scope, `invoke(D)` returns
the provided instance, while `new(D)` builds a fresh instance (heap id 3)
of the concrete class `mapClass(D) = D`, different from the provided one;
moreover `_new` never consults `getInstance` at all: replacing the
context's `getInstance` hook by an arbitrary function changes neither the
result nor the heap produced by `_new`. -/
theorem C8_instance_vs_construction :
    runInj8.2 = Except.ok dObj8 ∧
    runNew8.2 = Except.ok 3 ∧
    (3 : Nat) ≠ dObj8 ∧
    lookupN runNew8.1.heap.objs 3 = some { classId := 2, proxyFor := none } ∧
    (∀ g : Nat → Option Nat,
      (newF ctS (setGetInstance w8 ctx8 g) ctx8 2).2 = runNew8.2 ∧
      (newF ctS (setGetInstance w8 ctx8 g) ctx8 2).1.heap = runNew8.1.heap) :=
  ⟨rfl, rfl, by decide, rfl, fun _ => ⟨rfl, rfl⟩⟩

/-- C9.  A provider whose `typeof` is neither `"function"` nor `"object"`
(a number, string, boolean or undefined) makes `provide` fail fast with
the `TypeError("provider is neither class, function or object")` and leave
the world unchanged (no derived context is produced), for every class
table, world and context; a subclass, instance or middleware provider
yields a derived context without error. -/
theorem C9_provider_validation :
    (∀ (ct : ClassTable) (w : World) (c : Nat) (st : CtxState) (v : ProviderValue),
      lookupN w.ctxs c = some st → isPrimitiveProvider v = true →
      (provideF ct w c [v]).1 = w ∧
      (provideF ct w c [v]).2 =
        Except.error (DIErr.typeError "provider is neither class, function or object")) ∧
    (provideF ctC2 rootWorld rootCtxId [ProviderValue.classVal 2]).2 = Except.ok 1 ∧
    (provideF ctC2 memAllocC2.2 rootCtxId [ProviderValue.objVal memObjC2]).2 =
      Except.ok 2 ∧
    (provideF ctC2 rootWorld rootCtxId [ProviderValue.middlewareVal proxyMW]).2 =
      Except.ok 1 := by
  refine ⟨?_, rfl, rfl, rfl⟩
  intro ct w c st v hst hv
  cases v <;> simp_all [provideF, provideOne, isPrimitiveProvider]

theorem C9_provider_validation_witness :
    lookupN rootWorld.ctxs rootCtxId =
      some ⟨defaultHooks, [(dIContextId, rootCtxId)], []⟩ ∧
    isPrimitiveProvider ProviderValue.numVal = true ∧
    (provideF ctC2 rootWorld rootCtxId [ProviderValue.numVal]).2 =
      Except.error (DIErr.typeError "provider is neither class, function or object") :=
  ⟨rfl, rfl,
    (C9_provider_validation.1 ctC2 rootWorld rootCtxId
      ⟨defaultHooks, [(dIContextId, rootCtxId)], []⟩ ProviderValue.numVal rfl rfl).2⟩

/-- C10.  Every context created by `createDI` — hence the default context
and every context derived through `provide` — pre-seeds its memo cache
with `DIContext ↦ ctx`, so `invoke(DIContext)` returns the context itself
without any construction, for any class table, prior world, hooks and
positive fuel; concretely, the default context and the derived context
`ctx8` each resolve `DIContext` to themselves. -/
theorem C10_context_self_injection :
    (∀ (ct : ClassTable) (w : World) (hooks : Hooks) (fuel : Nat),
      (lookupN (createDI w hooks).2.ctxs (createDI w hooks).1).map
          (fun st => lookupN st.injectCache dIContextId) =
        some (some (createDI w hooks).1) ∧
      injectF ct (fuel + 1) (createDI w hooks).1 (createDI w hooks).2 dIContextId =
        ((createDI w hooks).2, Except.ok (createDI w hooks).1)) ∧
    (injectF ctS 10 rootCtxId rootWorld dIContextId).2 = Except.ok rootCtxId ∧
    (injectF ctS 10 ctx8 w8 dIContextId).2 = Except.ok ctx8 := by
  refine ⟨?_, rfl, rfl⟩
  intro ct w hooks fuel
  constructor
  · simp [createDI, allocObj, lookupN, dIContextId]
  · simp [injectF, createDI, allocObj, lookupN, dIContextId]

end Thisper
